import Mathlib

/-!
Verification of the squishy-mailer-lite persistence and secrets layers.

The store data model follows src/internal/store/store.go; the sqlite3
query operations follow the sqlite3 package (Store.SetTemplate and the
Queries methods); the secrets manager follows
src/internal/secrets/secrets.go; the credential handling follows
src/service/service.go.  Timestamps are modelled as an abstract clock
value, database rows as lists of records, and the SQL statements by
their row-level semantics on those lists.
-/

deriving instance DecidableEq for Except

namespace SquishyLite

/-- Error codes of the store error taxonomy, from the constant block of
src/internal/store/store.go. -/
inductive ErrCode where
  | projectAlreadyExists
  | projectNotFound
  | smtpTransportNotFound
  | groupNotFound
  | templateNotFound
deriving DecidableEq, Repr

/-- Low level storage errors: sql.ErrNoRows from a RETURNING scan with
no rows, and the sqlite3 driver constraint violation errors. -/
inductive LowErr where
  | sqlNoRows
  | sqliteFKConstraint
  | sqlitePKConstraint
deriving DecidableEq, Repr

/-- Errors as observed by callers of the sqlite3 store layer.  The
storeError constructor is a coded store.Error built by
store.NewStoreError, holding its code and an optional wrapped cause;
sentinelTransportNotFound is the bare package level variable
store.ErrTransportNotFound built with errors.New; low is an untranslated
low level storage error; wrapped stands for errors.Wrapf applied to a
low level error, keeping the cause. -/
inductive GoErr where
  | storeError (code : ErrCode) (cause : Option LowErr)
  | sentinelTransportNotFound
  | low (e : LowErr)
  | wrapped (cause : LowErr)
deriving DecidableEq, Repr

/-- The store.Error code reachable by unwrapping in the style of
errors.As: the code of the coded store.Error in the wrap chain, if
any (a wrapped or bare low level error carries none). -/
def GoErr.asStoreCode : GoErr → Option ErrCode
  | .storeError c _ => some c
  | _ => none

/-- Timestamps (store.Datetime, RFC3339 with microseconds, UTC) are
modelled as an abstract clock value; the coalesce default
1970-01-01T00:00:00.000000Z of the outer joins is the value 0. -/
abbrev Datetime := Nat

/-- store.Project row. -/
structure Project where
  projectID : String
  projectName : String
  description : String
  createdAt : Datetime
deriving DecidableEq, Repr

/-- store.SMTPTransport row. -/
structure SMTPTransport where
  smtpTransportID : String
  projectID : String
  transportName : String
  host : String
  port : Nat
  username : String
  encryptedPassword : String
  emailFrom : String
  emailFromName : String
  emailReplyTo : List String
  createdAt : Datetime
  modifiedAt : Datetime
deriving DecidableEq, Repr

/-- store.Group row. -/
structure Group where
  groupID : String
  projectID : String
  groupName : String
  createdAt : Datetime
  modifiedAt : Datetime
deriving DecidableEq, Repr

/-- store.Template row. -/
structure Template where
  templateID : String
  groupID : String
  projectID : String
  txt : String
  txtDigest : String
  html : String
  htmlDigest : String
  createdAt : Datetime
  modifiedAt : Datetime
deriving DecidableEq, Repr

/-- The sqlite3 database state: the four tables of the schema used by
the store (the mailqueue table plays no part in the verified claims). -/
structure DB where
  projects : List Project
  smtpTransports : List SMTPTransport
  groups : List Group
  templates : List Template
deriving DecidableEq, Repr

/-- store.AddSMTPTransport input parameters. -/
structure AddSMTPTransport where
  smtpTransportID : String
  projectID : String
  transportName : String
  host : String
  port : Nat
  username : String
  encryptedPassword : String
  emailFrom : String
  emailFromName : String
  emailReplyTo : List String
deriving DecidableEq, Repr

/-- store.AddGroup input parameters.  The createdAt and modifiedAt
fields exist in the source struct but InsertGroup ignores them and
stamps its own current time. -/
structure AddGroup where
  groupID : String
  projectID : String
  groupName : String
  createdAt : Datetime := 0
  modifiedAt : Datetime := 0
deriving DecidableEq, Repr

/-- store.AddTemplate input parameters.  The createdAt and modifiedAt
fields exist in the source struct but InsertTemplate ignores them and
stamps its own current time. -/
structure AddTemplate where
  templateID : String
  groupID : String
  projectID : String
  txt : String
  txtDigest : String
  html : String
  htmlDigest : String
  createdAt : Datetime := 0
  modifiedAt : Datetime := 0
deriving DecidableEq, Repr

/-- store.SetTemplateParams input parameters.  The createdAt and
modifiedAt fields exist in the source struct but SetTemplate never
reads them. -/
structure SetTemplateParams where
  templateID : String
  groupID : String
  projectID : String
  txt : String
  txtDigest : String
  html : String
  htmlDigest : String
  createdAt : Datetime := 0
  modifiedAt : Datetime := 0
deriving DecidableEq, Repr

/-- Row lookup of the projects table by primary key, as performed by
the WHERE clause p.project_id = :project_id. -/
def findProject (db : DB) (projectID : String) : Option Project :=
  db.projects.find? (fun p => p.projectID == projectID)

/-- Queries.InsertSMTPTransport: an INSERT driven by a SELECT from the
parent projects row.  When the project is absent the SELECT produces no
rows, the RETURNING scan yields sql.ErrNoRows, and the Go code only
wraps that error (no translation to a store code).  A primary key
collision on (smtp_transport_id, project_id) surfaces as a wrapped
constraint error since this method inspects no sqlite3 error codes. -/
def insertSMTPTransport (db : DB) (params : AddSMTPTransport) (now : Datetime) :
    Except GoErr (SMTPTransport × DB) :=
  match findProject db params.projectID with
  | none => .error (.wrapped .sqlNoRows)
  | some p =>
    if db.smtpTransports.any (fun t =>
        t.smtpTransportID == params.smtpTransportID && t.projectID == p.projectID) then
      .error (.wrapped .sqlitePKConstraint)
    else
      let r : SMTPTransport :=
        { smtpTransportID := params.smtpTransportID
          projectID := p.projectID
          transportName := params.transportName
          host := params.host
          port := params.port
          username := params.username
          encryptedPassword := params.encryptedPassword
          emailFrom := params.emailFrom
          emailFromName := params.emailFromName
          emailReplyTo := params.emailReplyTo
          createdAt := now
          modifiedAt := now }
      .ok (r, { db with smtpTransports := db.smtpTransports ++ [r] })

/-- Queries.InsertGroup: a plain INSERT.  The groups table carries a
foreign key to projects, so an absent parent project raises a sqlite3
foreign key constraint violation, which this method translates to the
coded store error ProjectNotFound with the driver error as cause
(foreign key enforcement is active: the method and its test expect the
violation to fire).  A primary key collision on (group_id, project_id)
is not inspected and surfaces wrapped. -/
def insertGroup (db : DB) (params : AddGroup) (now : Datetime) :
    Except GoErr (Group × DB) :=
  match findProject db params.projectID with
  | none => .error (.storeError .projectNotFound (some .sqliteFKConstraint))
  | some _ =>
    if db.groups.any (fun g =>
        g.groupID == params.groupID && g.projectID == params.projectID) then
      .error (.wrapped .sqlitePKConstraint)
    else
      let r : Group :=
        { groupID := params.groupID
          projectID := params.projectID
          groupName := params.groupName
          createdAt := now
          modifiedAt := now }
      .ok (r, { db with groups := db.groups ++ [r] })

/-- Queries.InsertTemplate: a plain INSERT.  The templates table has a
composite foreign key (group_id, project_id) referencing groups and a
uniqueness constraint on (template_id, project_id); either violation
surfaces as a wrapped driver error, since this method inspects no
sqlite3 error codes (the primary key (template_id, group_id,
project_id) is subsumed by the uniqueness constraint). -/
def insertTemplate (db : DB) (params : AddTemplate) (now : Datetime) :
    Except GoErr (Template × DB) :=
  if !(db.groups.any (fun g =>
      g.groupID == params.groupID && g.projectID == params.projectID)) then
    .error (.wrapped .sqliteFKConstraint)
  else if db.templates.any (fun t =>
      t.templateID == params.templateID && t.projectID == params.projectID) then
    .error (.wrapped .sqlitePKConstraint)
  else
    let r : Template :=
      { templateID := params.templateID
        groupID := params.groupID
        projectID := params.projectID
        txt := params.txt
        txtDigest := params.txtDigest
        html := params.html
        htmlDigest := params.htmlDigest
        createdAt := now
        modifiedAt := now }
    .ok (r, { db with templates := db.templates ++ [r] })

/-- Queries.GetSMTPTransport: LEFT OUTER JOIN from projects to
smtp_transports with coalesced sentinel fields.  No row at all means
the project is missing (coded ProjectNotFound with sql.ErrNoRows as
cause); a row whose coalesced smtp_transport_id is the empty string
means the transport is missing, and the method returns the bare
package sentinel store.ErrTransportNotFound. -/
def getSMTPTransport (db : DB) (transportID projectID : String) :
    Except GoErr SMTPTransport :=
  match findProject db projectID with
  | none => .error (.storeError .projectNotFound (some .sqlNoRows))
  | some _ =>
    let joined : SMTPTransport :=
      match db.smtpTransports.find? (fun t =>
          t.projectID == projectID && t.smtpTransportID == transportID) with
      | none =>
        { smtpTransportID := "", projectID := projectID, transportName := ""
          host := "", port := 0, username := "", encryptedPassword := ""
          emailFrom := "", emailFromName := "", emailReplyTo := []
          createdAt := 0, modifiedAt := 0 }
      | some t => t
    if joined.smtpTransportID == "" then
      .error .sentinelTransportNotFound
    else
      .ok joined

/-- Queries.GetTemplate: LEFT OUTER JOIN from projects to templates
keyed by (template_id, project_id), with coalesced sentinel fields.
The SELECT list carries template_id, group_id, project_id, txt, html
and the two timestamps but not txt_digest or html_digest, so the
scanned Template value keeps empty digest fields even when the stored
row has digests. -/
def getTemplate (db : DB) (projectID templateID : String) :
    Except GoErr Template :=
  match findProject db projectID with
  | none => .error (.storeError .projectNotFound (some .sqlNoRows))
  | some _ =>
    let joined : Template :=
      match db.templates.find? (fun t =>
          t.projectID == projectID && t.templateID == templateID) with
      | none =>
        { templateID := "", groupID := "", projectID := projectID
          txt := "", txtDigest := "", html := "", htmlDigest := ""
          createdAt := 0, modifiedAt := 0 }
      | some t =>
        { templateID := t.templateID, groupID := t.groupID, projectID := projectID
          txt := t.txt, txtDigest := "", html := t.html, htmlDigest := ""
          createdAt := t.createdAt, modifiedAt := t.modifiedAt }
    if joined.templateID == "" then
      .error (.storeError .templateNotFound none)
    else
      .ok joined

/-- The single row produced by the chkDigestQuery of Store.SetTemplate
when the project exists: the coalesced join of the templates row keyed
by (template_id, project_id), with an empty template_id as the absence
sentinel, FALSE digest comparison flags when absent, and the epoch
timestamps when absent. -/
structure ChkDigestRow where
  templateID : String
  groupID : String
  projectID : String
  txtDigestEq : Bool
  htmlDigestEq : Bool
  createdAt : Datetime
  modifiedAt : Datetime
deriving DecidableEq, Repr

/-- Evaluation of chkDigestQuery for an existing project: compares the
stored digest columns with the caller supplied digests. -/
def chkDigestJoinRow (db : DB) (params : SetTemplateParams) : ChkDigestRow :=
  match db.templates.find? (fun t =>
      t.projectID == params.projectID && t.templateID == params.templateID) with
  | none =>
    { templateID := "", groupID := "", projectID := params.projectID
      txtDigestEq := false, htmlDigestEq := false, createdAt := 0, modifiedAt := 0 }
  | some t =>
    { templateID := t.templateID, groupID := t.groupID, projectID := params.projectID
      txtDigestEq := t.txtDigest == params.txtDigest
      htmlDigestEq := t.htmlDigest == params.htmlDigest
      createdAt := t.createdAt, modifiedAt := t.modifiedAt }

/-- The parameter struct of the unexported updateTemplate query. -/
structure UpdateTemplateParams where
  projectID : String
  templateID : String
  txt : String
  txtDigest : String
  html : String
  htmlDigest : String
deriving DecidableEq, Repr

/-- The updated row value written and returned by
Queries.updateTemplate: body and digest columns from the caller,
modified_at set to the current time, every other column kept. -/
def updateTemplateRow (t : Template) (params : UpdateTemplateParams) (now : Datetime) : Template :=
  { t with txt := params.txt, txtDigest := params.txtDigest
           html := params.html, htmlDigest := params.htmlDigest
           modifiedAt := now }

/-- Queries.updateTemplate: UPDATE of the body, digest and modified_at
columns of the rows keyed by (template_id, project_id), RETURNING the
updated row; zero matching rows make the RETURNING scan yield
sql.ErrNoRows, which is only wrapped. -/
def updateTemplate (db : DB) (params : UpdateTemplateParams) (now : Datetime) :
    Except GoErr (Template × DB) :=
  match db.templates.find? (fun t =>
      t.templateID == params.templateID && t.projectID == params.projectID) with
  | none => .error (.wrapped .sqlNoRows)
  | some t =>
    .ok (updateTemplateRow t params now,
      { db with templates := db.templates.map (fun u =>
          if u.templateID == params.templateID && u.projectID == params.projectID then
            updateTemplateRow t params now
          else u) })

/-- Store.SetTemplate, run inside one serializable transaction: read
the chkDigestQuery row, then branch.  No row: the project is missing
(coded ProjectNotFound with sql.ErrNoRows as cause).  Sentinel empty
template_id: insert a fresh template.  Both digests equal: return a
value carrying the caller content with the stored timestamps without
touching the table.  Otherwise: update.  An error from either branch
rolls the transaction back, leaving the database unchanged. -/
def setTemplate (db : DB) (params : SetTemplateParams) (now : Datetime) :
    Except GoErr (Template × DB) :=
  match findProject db params.projectID with
  | none => .error (.storeError .projectNotFound (some .sqlNoRows))
  | some _ =>
    let row := chkDigestJoinRow db params
    if row.templateID == "" then
      insertTemplate db
        { templateID := params.templateID, groupID := params.groupID
          projectID := params.projectID, txt := params.txt
          txtDigest := params.txtDigest, html := params.html
          htmlDigest := params.htmlDigest
          createdAt := now, modifiedAt := now } now
    else if row.txtDigestEq && row.htmlDigestEq then
      .ok ({ templateID := params.templateID, groupID := row.groupID
             projectID := params.projectID, txt := params.txt
             txtDigest := params.txtDigest, html := params.html
             htmlDigest := params.htmlDigest
             createdAt := row.createdAt, modifiedAt := row.modifiedAt }, db)
    else
      updateTemplate db
        { projectID := params.projectID, templateID := params.templateID
          txt := params.txt, txtDigest := params.txtDigest
          html := params.html, htmlDigest := params.htmlDigest } now

/-- Byte strings (Go byte slices) are lists of byte values below 256. -/
def IsBytes (l : List Nat) : Prop := ∀ b ∈ l, b < 256

instance (l : List Nat) : Decidable (IsBytes l) := by
  unfold IsBytes; infer_instance

/-- Little endian value of a byte string. -/
def natOfBytesLE : List Nat → Nat
  | [] => 0
  | b :: rest => b + 256 * natOfBytesLE rest

/-- Little endian byte string of a value, at a fixed width. -/
def natToBytesLE : Nat → Nat → List Nat
  | 0, _ => []
  | len + 1, n => n % 256 :: natToBytesLE len (n / 256)

/-- Modelled from the spec: the platform AEAD primitive (AES-128-GCM,
96 bit nonce, no associated data) used by secrets.Manager is an
external collaborator supplied by the cryptography library, so its
internals are not repository code.  The model keeps the GCM envelope
shape: a counter mode keystream derived from key and nonce, and a 16
byte authentication tag over the raw ciphertext bound to key and
nonce, computed in a fixed odd prime modulus so that any single bit
change of nonce or ciphertext shifts the tag by a nonzero power of
two.  This is the tag modulus. -/
def tagModulus : Nat := 2 ^ 128 - 159

/-- Modelled from the spec: byte i of the counter mode keystream for a
key and nonce. -/
def keystreamByte (key nonce : List Nat) (i : Nat) : Nat :=
  (natOfBytesLE key + natOfBytesLE nonce + i) % 256

/-- Modelled from the spec: the keystream of a given length. -/
def keystream (key nonce : List Nat) (len : Nat) : List Nat :=
  (List.range len).map (keystreamByte key nonce)

/-- Bytewise xor of two byte strings (truncating to the shorter). -/
def xorBytes (a b : List Nat) : List Nat := List.zipWith (fun x y => x ^^^ y) a b

/-- Modelled from the spec: the authentication tag value over the raw
ciphertext, bound to key and nonce. -/
def authTagNat (key nonce data : List Nat) : Nat :=
  (natOfBytesLE key + natOfBytesLE nonce + natOfBytesLE data) % tagModulus

/-- Modelled from the spec: AEAD Seal.  The ciphertext is the xor
masked plaintext followed by the 16 byte tag, as in GCM. -/
def gcmSeal (key nonce pt : List Nat) : List Nat :=
  let data := xorBytes pt (keystream key nonce pt.length)
  data ++ natToBytesLE 16 (authTagNat key nonce data)

/-- Modelled from the spec: AEAD Open.  Splits off the 16 byte tag,
recomputes it over the received raw ciphertext with the received
nonce, and fails closed (none, the AuthenticationFailure outcome) on
any mismatch; only a verified ciphertext is unmasked. -/
def gcmOpen (key nonce ct : List Nat) : Option (List Nat) :=
  if ct.length < 16 then none
  else
    let data := ct.take (ct.length - 16)
    let tagBytes := ct.drop (ct.length - 16)
    if tagBytes = natToBytesLE 16 (authTagNat key nonce data) then
      some (xorBytes data (keystream key nonce data.length))
    else none

/-- Flip of bit j of a byte value. -/
def flipBit (j b : Nat) : Nat :=
  if Nat.testBit b j then b - 2 ^ j else b + 2 ^ j

/-- Flip of bit j of byte i of a byte string. -/
def flipByteBit (l : List Nat) (i j : Nat) : List Nat :=
  l.set i (flipBit j (l.getD i 0))

/-- secrets.Manager: the mode and the private key. -/
structure Manager where
  mode : Nat
  key : List Nat
deriving DecidableEq, Repr

/-- secrets.AESGCMWithRandomNonce, the single supported mode. -/
def AESGCMWithRandomNonce : Nat := 0

/-- secrets.New: constructing a manager fails unless the mode is
AESGCMWithRandomNonce and the key is exactly 16 bytes. -/
def secretsNew (m : Nat) (key : List Nat) : Except String Manager :=
  if m != AESGCMWithRandomNonce then
    .error "AESGCMWithRandomNonce is currently the only supported mode of operation"
  else if key.length != 16 then
    .error "secret manager key must be 16 bytes in length"
  else
    .ok { mode := m, key := key }

/-- Manager.Encrypt: the source draws a fresh 12 byte nonce from the
secure random source on every call; the drawn nonce is an explicit
argument of the model, so one call is one draw.  Returns the
(nonce, ciphertext) pair. -/
def Manager.encrypt (m : Manager) (nonce pt : List Nat) : List Nat × List Nat :=
  (nonce, gcmSeal m.key nonce pt)

/-- Manager.Decrypt: AEAD Open under the manager key; none is the
AuthenticationFailure outcome. -/
def Manager.decrypt (m : Manager) (nonce ct : List Nat) : Option (List Nat) :=
  gcmOpen m.key nonce ct

/-- Lowercase hex digit of a value below 16, as encoding/hex writes. -/
def hexDigitChar (n : Nat) : Char :=
  if n < 10 then Char.ofNat (48 + n) else Char.ofNat (87 + n)

/-- Hex encoding of a byte string, two lowercase digits per byte, as
hex.Encode. -/
def hexEncodeChars : List Nat → List Char
  | [] => []
  | b :: rest => hexDigitChar (b / 16) :: hexDigitChar (b % 16) :: hexEncodeChars rest

/-- Hex encoding into a string. -/
def hexEncode (bs : List Nat) : String := ⟨hexEncodeChars bs⟩

/-- Value of one hex digit, accepting both cases, as the byte decoder
of encoding/hex. -/
def hexDigitVal (c : Char) : Option Nat :=
  if 48 ≤ c.toNat ∧ c.toNat ≤ 57 then some (c.toNat - 48)
  else if 97 ≤ c.toNat ∧ c.toNat ≤ 102 then some (c.toNat - 87)
  else if 65 ≤ c.toNat ∧ c.toNat ≤ 70 then some (c.toNat - 55)
  else none

/-- hex.DecodeString on the character list: pairs of digits, failing
on a stray digit or a non hex character. -/
def hexDecodeChars : List Char → Option (List Nat)
  | [] => some []
  | [_] => none
  | c1 :: c2 :: rest =>
    match hexDigitVal c1, hexDigitVal c2, hexDecodeChars rest with
    | some hi, some lo, some tail => some ((16 * hi + lo) :: tail)
    | _, _, _ => none

/-- hex.DecodeString. -/
def hexDecode (s : String) : Option (List Nat) := hexDecodeChars s.data

/-- Manager.EncryptHexEncode: Encrypt, then hex encode nonce and
ciphertext separately. -/
def Manager.encryptHexEncode (m : Manager) (nonce pt : List Nat) : String × String :=
  let r := m.encrypt nonce pt
  (hexEncode r.1, hexEncode r.2)

/-- Manager.HexDecodeDecrypt: hex decode the nonce and ciphertext
strings, then Decrypt; a decode failure or an authentication failure
both yield none (the source returns the respective error). -/
def Manager.hexDecodeDecrypt (m : Manager) (nonceHex ctHex : String) : Option (List Nat) :=
  match hexDecode nonceHex, hexDecode ctHex with
  | some nonce, some ct => m.decrypt nonce ct
  | _, _ => none

/-- Service.CreateSMTPTransport credential envelope: the persisted
encrypted_password column value is the hex nonce immediately followed
by the hex ciphertext. -/
def createSMTPTransportEncryptedPassword (m : Manager) (nonce password : List Nat) : String :=
  let p := m.encryptHexEncode nonce password
  p.1 ++ p.2

/-- Go string slicing s[0:24]: defined only when the string has at
least 24 bytes, otherwise the program panics (none). -/
def goSliceTo24 (s : String) : Option String :=
  if 24 ≤ s.data.length then some ⟨s.data.take 24⟩ else none

/-- Go string slicing s[24:]: defined only when the string has at
least 24 bytes, otherwise the program panics (none). -/
def goSliceFrom24 (s : String) : Option String :=
  if 24 ≤ s.data.length then some ⟨s.data.drop 24⟩ else none

/-- The credential splitting step of Service.SendEmail: the two
unguarded slice expressions EncryptedPassword[0:24] and
EncryptedPassword[24:]; none is a runtime panic, not a returned
error. -/
def sendEmailSplitPassword (t : SMTPTransport) : Option (String × String) :=
  match goSliceTo24 t.encryptedPassword, goSliceFrom24 t.encryptedPassword with
  | some a, some b => some (a, b)
  | _, _ => none

/-- Service.SendEmail up to and including the credential splitting:
fetch the transport through the store, then slice the persisted
encrypted password at the fixed offset 24.  An ok none outcome means
the transport was found but the process panics on the slice. -/
def sendEmailPasswordStep (db : DB) (transportID projectID : String) :
    Except GoErr (Option (String × String)) :=
  match getSMTPTransport db transportID projectID with
  | .error e => .error e
  | .ok t => .ok (sendEmailSplitPassword t)

/-! ## General list helpers -/

theorem find?_append_of_none {α : Type} (l l2 : List α) (p : α → Bool)
    (h : l.find? p = none) : (l ++ l2).find? p = l2.find? p := by
  induction l with
  | nil => rfl
  | cons a l ih =>
    rcases hpa : p a with _ | _
    · rw [List.find?_cons_of_neg _ (by simp [hpa])] at h
      rw [List.cons_append, List.find?_cons_of_neg _ (by simp [hpa])]
      exact ih h
    · rw [List.find?_cons_of_pos _ hpa] at h
      exact absurd h (by simp)

theorem find?_map_update {α : Type} (l : List α) (p c : α → Bool) (u : α)
    (hpc : ∀ a, p a = c a) (hu : p u = true) (t : α) :
    l.find? p = some t →
    (l.map (fun a => if c a then u else a)).find? p = some u := by
  induction l with
  | nil => intro h; simp at h
  | cons a l ih =>
    intro h
    rcases hpa : p a with _ | _
    · rw [List.find?_cons_of_neg _ (by simp [hpa])] at h
      have hca : c a = false := (hpc a) ▸ hpa
      simp only [List.map_cons, hca, Bool.false_eq_true, if_false, List.find?_cons, hpa]
      exact ih h
    · have hca : c a = true := (hpc a) ▸ hpa
      simp only [List.map_cons, hca, if_true, List.find?_cons, hu]

theorem any_eq_false_of_find?_none {α : Type} (l : List α) (p q : α → Bool)
    (hpq : ∀ a, p a = q a) (h : l.find? p = none) : l.any q = false := by
  rw [List.find?_eq_none] at h
  rw [List.any_eq_false]
  intro a ha
  have := h a ha
  rw [hpq a] at this
  exact fun hq => this hq

/-! ## Concrete sample rows for witnesses and counterexamples -/

/-- A sample project row. -/
def sampleProject : Project :=
  { projectID := "p1", projectName := "Project One", description := "d", createdAt := 1 }

/-- A sample group row under the sample project. -/
def sampleGroup : Group :=
  { groupID := "g1", projectID := "p1", groupName := "Group One"
    createdAt := 2, modifiedAt := 2 }

/-- A sample template row under the sample group. -/
def sampleTemplate : Template :=
  { templateID := "t1", groupID := "g1", projectID := "p1"
    txt := "A", txtDigest := "da", html := "h", htmlDigest := "dh"
    createdAt := 5, modifiedAt := 5 }

/-- A sample database holding the sample project, group and template. -/
def sampleDB : DB :=
  { projects := [sampleProject], smtpTransports := [], groups := [sampleGroup]
    templates := [sampleTemplate] }

/-- A template row whose template_id is the empty string, the value the
store also uses as its join absence sentinel.  SetTemplate itself
creates such a row when first called with an empty template id. -/
def emptyIDTemplate : Template :=
  { templateID := "", groupID := "g1", projectID := "p1"
    txt := "A", txtDigest := "da", html := "h", htmlDigest := "dh"
    createdAt := 5, modifiedAt := 5 }

/-- A database holding the empty-id template row. -/
def emptyIDTemplateDB : DB :=
  { projects := [sampleProject], smtpTransports := [], groups := [sampleGroup]
    templates := [emptyIDTemplate] }

/-- A database holding the sample project but no groups and no
templates. -/
def noGroupsDB : DB :=
  { projects := [sampleProject], smtpTransports := [], groups := []
    templates := [] }

/-- A database with no rows at all. -/
def emptyDB : DB :=
  { projects := [], smtpTransports := [], groups := [], templates := [] }

/-- Sample transport insert parameters. -/
def sampleAddTransport : AddSMTPTransport :=
  { smtpTransportID := "tr1", projectID := "p1", transportName := "T"
    host := "smtp.example.com", port := 587, username := "u"
    encryptedPassword := "e", emailFrom := "f@example.com"
    emailFromName := "F", emailReplyTo := ["r@example.com"] }

/-! ## Claim C1: SetTemplate no-op branch and idempotence -/

/-- The no-op branch of Store.SetTemplate: when the project exists, a
row with a non empty template id matching (templateID, projectID) is
stored and both stored digests equal the supplied ones, the call
rewrites nothing and returns the caller content with the stored
timestamps. -/
theorem setTemplate_noop_core (db : DB) (params : SetTemplateParams)
    (now : Datetime) (t : Template)
    (hp : (findProject db params.projectID).isSome = true)
    (hfind : db.templates.find? (fun u =>
      u.projectID == params.projectID && u.templateID == params.templateID) = some t)
    (hne : params.templateID ≠ "")
    (htd : t.txtDigest = params.txtDigest) (hhd : t.htmlDigest = params.htmlDigest) :
    setTemplate db params now =
      .ok ({ templateID := params.templateID, groupID := t.groupID
             projectID := params.projectID, txt := params.txt
             txtDigest := params.txtDigest, html := params.html
             htmlDigest := params.htmlDigest
             createdAt := t.createdAt, modifiedAt := t.modifiedAt }, db) := by
  obtain ⟨pr, hpr⟩ := Option.isSome_iff_exists.mp hp
  have hmem := List.find?_some hfind
  simp only [Bool.and_eq_true, beq_iff_eq] at hmem
  have hne2 : (t.templateID == "") = false := by
    rw [hmem.2]
    exact beq_eq_false_iff_ne.mpr hne
  simp [setTemplate, hpr, chkDigestJoinRow, hfind, hne2, htd, hhd]

/-- Replaying SetTemplate right after its insert branch: the freshly
appended row is found by the join, carries the caller digests, and the
call becomes the no-op branch. -/
theorem setTemplate_after_insert (db : DB) (params : SetTemplateParams)
    (pr : Project) (row : Template) (now2 : Datetime)
    (hpr : findProject db params.projectID = some pr)
    (hfind : db.templates.find? (fun u =>
      u.projectID == params.projectID && u.templateID == params.templateID) = none)
    (hrowp : row.projectID = params.projectID)
    (hrowt : row.templateID = params.templateID)
    (hrowtxt : row.txtDigest = params.txtDigest)
    (hrowhtml : row.htmlDigest = params.htmlDigest)
    (hne : params.templateID ≠ "") :
    setTemplate { db with templates := db.templates ++ [row] } params now2 =
      .ok ({ templateID := params.templateID, groupID := row.groupID
             projectID := params.projectID, txt := params.txt
             txtDigest := params.txtDigest, html := params.html
             htmlDigest := params.htmlDigest
             createdAt := row.createdAt, modifiedAt := row.modifiedAt },
           { db with templates := db.templates ++ [row] }) := by
  have hp1 : (findProject { db with templates := db.templates ++ [row] }
      params.projectID).isSome = true := by
    have h2 : findProject { db with templates := db.templates ++ [row] }
        params.projectID = some pr := hpr
    rw [h2]
    rfl
  have hfind1 : ({ db with templates := db.templates ++ [row] } : DB).templates.find?
      (fun u => u.projectID == params.projectID && u.templateID == params.templateID) =
      some row := by
    show (db.templates ++ [row]).find? _ = some row
    rw [find?_append_of_none _ _ _ hfind]
    simp [List.find?, hrowp, hrowt]
  exact setTemplate_noop_core _ params now2 row hp1 hfind1 hne hrowtxt hrowhtml

/-- Replaying SetTemplate right after its update branch: the rewritten
row is found by the join, carries the caller digests and bodies, and
the call becomes the no-op branch returning that row unchanged. -/
theorem setTemplate_after_update (db : DB) (params : SetTemplateParams)
    (pr : Project) (updated : Template) (now2 : Datetime)
    (hpr : findProject db params.projectID = some pr)
    (hup : updated.projectID = params.projectID)
    (hut : updated.templateID = params.templateID)
    (hutxt : updated.txtDigest = params.txtDigest)
    (huhtml : updated.htmlDigest = params.htmlDigest)
    (htxt : updated.txt = params.txt)
    (hhtml : updated.html = params.html)
    (hne : params.templateID ≠ "")
    (hfind1 : (db.templates.map (fun u =>
        if u.templateID == params.templateID && u.projectID == params.projectID then
          updated
        else u)).find? (fun u =>
        u.projectID == params.projectID && u.templateID == params.templateID) =
        some updated) :
    setTemplate { db with templates := db.templates.map (fun u =>
        if u.templateID == params.templateID && u.projectID == params.projectID then
          updated
        else u) } params now2 =
      .ok (updated,
           { db with templates := db.templates.map (fun u =>
               if u.templateID == params.templateID && u.projectID == params.projectID then
                 updated
               else u) }) := by
  have hp1 : (findProject { db with templates := db.templates.map (fun u =>
      if u.templateID == params.templateID && u.projectID == params.projectID then
        updated
      else u) } params.projectID).isSome = true := by
    have h2 : findProject { db with templates := db.templates.map (fun u =>
        if u.templateID == params.templateID && u.projectID == params.projectID then
          updated
        else u) } params.projectID = some pr := hpr
    rw [h2]
    rfl
  have hres := setTemplate_noop_core _ params now2 updated hp1 hfind1 hne hutxt huhtml
  refine hres.trans ?_
  congr 1
  cases updated
  simp only at hup hut hutxt huhtml htxt hhtml
  rw [hup, hut, hutxt, huhtml, htxt, hhtml]

/-- C1 (amended).  Provided the templateID is not the empty string —
the amendment: the empty string is the value the chkDigestQuery uses as
its absence sentinel, so a stored row with an empty template id is
treated as absent — SetTemplate is a true no-op whenever the row
(templateID, projectID) exists with stored digests equal to the caller
supplied ones: it rewrites no row and returns a Template carrying the
caller bodies and digests but the stored CreatedAt and ModifiedAt, so
ModifiedAt does not advance.  Moreover any successful SetTemplate call
is a fixpoint under replay: an immediately repeated call with identical
content changes nothing and returns the very same Template value, so
ModifiedAt is unchanged after the first call and both calls yield
identical digests. -/
theorem setTemplate_noop_and_replay :
    (∀ (db : DB) (params : SetTemplateParams) (now : Datetime) (t : Template),
      (findProject db params.projectID).isSome = true →
      db.templates.find? (fun u =>
        u.projectID == params.projectID && u.templateID == params.templateID) = some t →
      params.templateID ≠ "" →
      t.txtDigest = params.txtDigest →
      t.htmlDigest = params.htmlDigest →
      setTemplate db params now =
        .ok ({ templateID := params.templateID, groupID := t.groupID
               projectID := params.projectID, txt := params.txt
               txtDigest := params.txtDigest, html := params.html
               htmlDigest := params.htmlDigest
               createdAt := t.createdAt, modifiedAt := t.modifiedAt }, db))
    ∧ (∀ (db db1 : DB) (params : SetTemplateParams) (now1 now2 : Datetime) (r : Template),
      params.templateID ≠ "" →
      setTemplate db params now1 = .ok (r, db1) →
      setTemplate db1 params now2 = .ok (r, db1)) := by
  constructor
  · exact fun db params now t hp hfind hne htd hhd =>
      setTemplate_noop_core db params now t hp hfind hne htd hhd
  · intro db db1 params now1 now2 r hne hset
    rcases hpr : findProject db params.projectID with _ | pr
    · simp only [setTemplate, hpr] at hset
      exact absurd hset (by simp)
    · rcases hfind : db.templates.find? (fun u =>
          u.projectID == params.projectID && u.templateID == params.templateID)
          with _ | t
      · -- first call took the insert branch
        simp only [setTemplate, hpr, chkDigestJoinRow, hfind, beq_self_eq_true,
          if_true, insertTemplate] at hset
        rcases hg : db.groups.any (fun g =>
            g.groupID == params.groupID && g.projectID == params.projectID) with _ | _
        · simp [hg] at hset
        · rcases hu : db.templates.any (fun t =>
              t.templateID == params.templateID && t.projectID == params.projectID)
              with _ | _
          · simp only [hg, hu, Bool.not_true, Bool.not_false, Bool.false_eq_true,
              if_false, if_true, Except.ok.injEq, Prod.mk.injEq] at hset
            obtain ⟨hr, hdb⟩ := hset
            subst hdb
            subst hr
            exact setTemplate_after_insert db params pr _ now2 hpr hfind
              rfl rfl rfl rfl hne
          · simp [hg, hu] at hset
      · -- first call found a stored row
        have hmem := List.find?_some hfind
        simp only [Bool.and_eq_true, beq_iff_eq] at hmem
        have hne2 : (t.templateID == "") = false := by
          rw [hmem.2]
          exact beq_eq_false_iff_ne.mpr hne
        simp only [setTemplate, hpr, chkDigestJoinRow, hfind, hne2,
          Bool.false_eq_true, if_false] at hset
        rcases hdig : (t.txtDigest == params.txtDigest &&
            t.htmlDigest == params.htmlDigest) with _ | _
        · -- digests differed: the first call took the update branch
          simp only [hdig, Bool.false_eq_true, if_false, updateTemplate] at hset
          have hcomm : (fun (u : Template) =>
              u.projectID == params.projectID && u.templateID == params.templateID) =
              (fun (u : Template) =>
              u.templateID == params.templateID && u.projectID == params.projectID) :=
            funext (fun u => Bool.and_comm _ _)
          have hfind2 : db.templates.find? (fun u =>
              u.templateID == params.templateID && u.projectID == params.projectID) =
              some t := hcomm ▸ hfind
          simp only [hfind2, Except.ok.injEq, Prod.mk.injEq] at hset
          obtain ⟨hr, hdb⟩ := hset
          subst hdb
          subst hr
          have hpredu : ((updateTemplateRow t
              { projectID := params.projectID, templateID := params.templateID
                txt := params.txt, txtDigest := params.txtDigest
                html := params.html, htmlDigest := params.htmlDigest } now1).projectID ==
              params.projectID &&
              (updateTemplateRow t
              { projectID := params.projectID, templateID := params.templateID
                txt := params.txt, txtDigest := params.txtDigest
                html := params.html, htmlDigest := params.htmlDigest } now1).templateID ==
              params.templateID) = true := by
            simp [updateTemplateRow, hmem.1, hmem.2]
          have hfind1 := find?_map_update db.templates
            (fun (u : Template) =>
              u.projectID == params.projectID && u.templateID == params.templateID)
            (fun (u : Template) =>
              u.templateID == params.templateID && u.projectID == params.projectID)
            (updateTemplateRow t
              { projectID := params.projectID, templateID := params.templateID
                txt := params.txt, txtDigest := params.txtDigest
                html := params.html, htmlDigest := params.htmlDigest } now1)
            (fun a => Bool.and_comm _ _) hpredu t hfind
          exact setTemplate_after_update db params pr
            (updateTemplateRow t
              { projectID := params.projectID, templateID := params.templateID
                txt := params.txt, txtDigest := params.txtDigest
                html := params.html, htmlDigest := params.htmlDigest } now1) now2 hpr
            (by simp [updateTemplateRow, hmem.1])
            (by simp [updateTemplateRow, hmem.2]) rfl rfl rfl rfl hne hfind1
        · -- digests matched: the first call was already the no-op branch
          simp only [hdig, if_true, Except.ok.injEq, Prod.mk.injEq] at hset
          obtain ⟨hr, hdb⟩ := hset
          subst hdb
          subst hr
          have hdigpair := (Bool.and_eq_true _ _).mp hdig
          exact setTemplate_noop_core db params now2 t (by rw [hpr]; rfl) hfind hne
            (eq_of_beq hdigpair.1) (eq_of_beq hdigpair.2)

/-- C1 witness: the no-op call and the replay property on the sample
database. -/
theorem setTemplate_noop_witness :
    setTemplate sampleDB
      { templateID := "t1", groupID := "g1", projectID := "p1", txt := "A2"
        txtDigest := "da", html := "h2", htmlDigest := "dh" } 9 =
      .ok ({ templateID := "t1", groupID := "g1", projectID := "p1", txt := "A2"
             txtDigest := "da", html := "h2", htmlDigest := "dh"
             createdAt := 5, modifiedAt := 5 }, sampleDB) ∧
    setTemplate sampleDB
      { templateID := "t1", groupID := "g1", projectID := "p1", txt := "A2"
        txtDigest := "da", html := "h2", htmlDigest := "dh" } 11 =
      .ok ({ templateID := "t1", groupID := "g1", projectID := "p1", txt := "A2"
             txtDigest := "da", html := "h2", htmlDigest := "dh"
             createdAt := 5, modifiedAt := 5 }, sampleDB) :=
  ⟨setTemplate_noop_and_replay.1 sampleDB
      { templateID := "t1", groupID := "g1", projectID := "p1", txt := "A2"
        txtDigest := "da", html := "h2", htmlDigest := "dh" } 9 sampleTemplate
      (by decide) (by decide) (by decide) (by decide) (by decide),
   setTemplate_noop_and_replay.2 sampleDB sampleDB
      { templateID := "t1", groupID := "g1", projectID := "p1", txt := "A2"
        txtDigest := "da", html := "h2", htmlDigest := "dh" } 9 11
      { templateID := "t1", groupID := "g1", projectID := "p1", txt := "A2"
        txtDigest := "da", html := "h2", htmlDigest := "dh"
        createdAt := 5, modifiedAt := 5 }
      (by decide)
      (setTemplate_noop_and_replay.1 sampleDB
        { templateID := "t1", groupID := "g1", projectID := "p1", txt := "A2"
          txtDigest := "da", html := "h2", htmlDigest := "dh" } 9 sampleTemplate
        (by decide) (by decide) (by decide) (by decide) (by decide))⟩

/-- C1 counterexample: with an empty templateID the claim fails even
though the row (templateID, projectID) exists with both stored digests
equal to the supplied ones: the chkDigestQuery treats the empty id as
its absence sentinel, takes the insert branch, and the insert collides
with the stored row, so the call errors instead of no-opping — and a
second identical call after a first successful one errors likewise
instead of leaving ModifiedAt unchanged. -/
theorem setTemplate_empty_id_noop_counterexample :
    emptyIDTemplateDB.templates.find? (fun u =>
      u.projectID == "p1" && u.templateID == "") = some emptyIDTemplate ∧
    emptyIDTemplate.txtDigest = "da" ∧ emptyIDTemplate.htmlDigest = "dh" ∧
    setTemplate emptyIDTemplateDB
      { templateID := "", groupID := "g1", projectID := "p1", txt := "A"
        txtDigest := "da", html := "h", htmlDigest := "dh" } 9 =
      .error (.wrapped .sqlitePKConstraint) := by
  decide

/-! ## Claim C3: SetTemplate update branch -/

/-- C3 (amended).  Provided the templateID is not the empty string —
the amendment, as for the no-op branch: an empty id is taken for the
absence sentinel and routed to the insert branch — whenever the row
(templateID, projectID) exists and at least one supplied digest differs
from the stored one, SetTemplate updates the body and digest columns of
that row to the supplied values, sets ModifiedAt to the current time
(strictly later than the stored ModifiedAt whenever the clock has
advanced past it), leaves CreatedAt unchanged, and returns the updated
row; a body whose digest was unchanged keeps its digest constant. -/
theorem setTemplate_update_branch :
    ∀ (db : DB) (params : SetTemplateParams) (now : Datetime) (t : Template),
      (findProject db params.projectID).isSome = true →
      db.templates.find? (fun u =>
        u.projectID == params.projectID && u.templateID == params.templateID) = some t →
      params.templateID ≠ "" →
      ¬(t.txtDigest = params.txtDigest ∧ t.htmlDigest = params.htmlDigest) →
      setTemplate db params now =
        .ok (updateTemplateRow t
              { projectID := params.projectID, templateID := params.templateID
                txt := params.txt, txtDigest := params.txtDigest
                html := params.html, htmlDigest := params.htmlDigest } now,
             { db with templates := db.templates.map (fun u =>
                 if u.templateID == params.templateID && u.projectID == params.projectID then
                   updateTemplateRow t
                     { projectID := params.projectID, templateID := params.templateID
                       txt := params.txt, txtDigest := params.txtDigest
                       html := params.html, htmlDigest := params.htmlDigest } now
                 else u) })
      ∧ (updateTemplateRow t
          { projectID := params.projectID, templateID := params.templateID
            txt := params.txt, txtDigest := params.txtDigest
            html := params.html, htmlDigest := params.htmlDigest } now).createdAt =
          t.createdAt
      ∧ (updateTemplateRow t
          { projectID := params.projectID, templateID := params.templateID
            txt := params.txt, txtDigest := params.txtDigest
            html := params.html, htmlDigest := params.htmlDigest } now).modifiedAt = now
      ∧ (t.modifiedAt < now →
          t.modifiedAt < (updateTemplateRow t
            { projectID := params.projectID, templateID := params.templateID
              txt := params.txt, txtDigest := params.txtDigest
              html := params.html, htmlDigest := params.htmlDigest } now).modifiedAt)
      ∧ (params.txtDigest = t.txtDigest →
          (updateTemplateRow t
            { projectID := params.projectID, templateID := params.templateID
              txt := params.txt, txtDigest := params.txtDigest
              html := params.html, htmlDigest := params.htmlDigest } now).txtDigest =
            t.txtDigest)
      ∧ (params.htmlDigest = t.htmlDigest →
          (updateTemplateRow t
            { projectID := params.projectID, templateID := params.templateID
              txt := params.txt, txtDigest := params.txtDigest
              html := params.html, htmlDigest := params.htmlDigest } now).htmlDigest =
            t.htmlDigest) := by
  intro db params now t hp hfind hne hdig
  obtain ⟨pr, hpr⟩ := Option.isSome_iff_exists.mp hp
  have hmem := List.find?_some hfind
  simp only [Bool.and_eq_true, beq_iff_eq] at hmem
  have hne2 : (t.templateID == "") = false := by
    rw [hmem.2]
    exact beq_eq_false_iff_ne.mpr hne
  have hdig2 : (t.txtDigest == params.txtDigest &&
      t.htmlDigest == params.htmlDigest) = false := by
    rcases h1 : t.txtDigest == params.txtDigest with _ | _
    · simp [h1]
    · rcases h2 : t.htmlDigest == params.htmlDigest with _ | _
      · simp [h1, h2]
      · exact absurd ⟨eq_of_beq h1, eq_of_beq h2⟩ hdig
  have hcomm : (fun (u : Template) =>
      u.projectID == params.projectID && u.templateID == params.templateID) =
      (fun (u : Template) =>
      u.templateID == params.templateID && u.projectID == params.projectID) :=
    funext (fun u => Bool.and_comm _ _)
  have hfind2 : db.templates.find? (fun u =>
      u.templateID == params.templateID && u.projectID == params.projectID) =
      some t := hcomm ▸ hfind
  refine ⟨?_, rfl, rfl, fun h => h, fun h => by simp [updateTemplateRow, h],
    fun h => by simp [updateTemplateRow, h]⟩
  simp [setTemplate, hpr, chkDigestJoinRow, hfind, hne2, hdig2,
    updateTemplate, hfind2]

/-- C3 witness: updating the sample template with a changed text digest
and an unchanged html digest. -/
theorem setTemplate_update_branch_witness :
    setTemplate sampleDB
      { templateID := "t1", groupID := "g1", projectID := "p1", txt := "B"
        txtDigest := "db9", html := "h", htmlDigest := "dh" } 9 =
      .ok ({ templateID := "t1", groupID := "g1", projectID := "p1", txt := "B"
             txtDigest := "db9", html := "h", htmlDigest := "dh"
             createdAt := 5, modifiedAt := 9 },
           { sampleDB with templates :=
               [{ templateID := "t1", groupID := "g1", projectID := "p1"
                  txt := "B", txtDigest := "db9", html := "h"
                  htmlDigest := "dh", createdAt := 5, modifiedAt := 9 }] }) ∧
    (5 : Nat) < 9 := by
  have h := setTemplate_update_branch sampleDB
    { templateID := "t1", groupID := "g1", projectID := "p1", txt := "B"
      txtDigest := "db9", html := "h", htmlDigest := "dh" } 9 sampleTemplate
    (by decide) (by decide) (by decide) (by decide)
  exact ⟨by simpa [sampleDB, sampleTemplate, updateTemplateRow] using h.1, by decide⟩

/-- C3 counterexample: with an empty templateID the claim fails even
though the row exists and the supplied text digest differs from the
stored one: the empty id is taken for the absence sentinel, the insert
branch runs instead of the update, and the call errors on the
uniqueness constraint instead of returning the updated row. -/
theorem setTemplate_empty_id_update_counterexample :
    emptyIDTemplateDB.templates.find? (fun u =>
      u.projectID == "p1" && u.templateID == "") = some emptyIDTemplate ∧
    emptyIDTemplate.txtDigest ≠ "changed" ∧
    setTemplate emptyIDTemplateDB
      { templateID := "", groupID := "g1", projectID := "p1", txt := "B"
        txtDigest := "changed", html := "h", htmlDigest := "dh" } 9 =
      .error (.wrapped .sqlitePKConstraint) := by
  decide

/-! ## Claim C2: SetTemplate create branch and project-missing branch -/

/-- C2 (amended).  For every call where the project row does not exist,
SetTemplate fails with the coded ProjectNotFound error.  For every call
where the project exists, no template row matches (templateID,
projectID) and the target group (groupID, projectID) exists — the
amendment, since the insert otherwise fails on the foreign key
constraint of the templates table — SetTemplate inserts a new Template
row with the supplied bodies and digests and the current timestamp for
both CreatedAt and ModifiedAt (so CreatedAt equals ModifiedAt in the
returned value) and returns it. -/
theorem setTemplate_create_and_project_missing :
    (∀ (db : DB) (params : SetTemplateParams) (now : Datetime),
      findProject db params.projectID = none →
      setTemplate db params now =
        .error (.storeError .projectNotFound (some .sqlNoRows)))
    ∧ (∀ (db : DB) (params : SetTemplateParams) (now : Datetime),
      (findProject db params.projectID).isSome = true →
      db.templates.find? (fun t =>
        t.projectID == params.projectID && t.templateID == params.templateID) = none →
      db.groups.any (fun g =>
        g.groupID == params.groupID && g.projectID == params.projectID) = true →
      setTemplate db params now =
        .ok ({ templateID := params.templateID, groupID := params.groupID
               projectID := params.projectID, txt := params.txt
               txtDigest := params.txtDigest, html := params.html
               htmlDigest := params.htmlDigest
               createdAt := now, modifiedAt := now },
             { db with templates := db.templates ++
                 [{ templateID := params.templateID, groupID := params.groupID
                    projectID := params.projectID, txt := params.txt
                    txtDigest := params.txtDigest, html := params.html
                    htmlDigest := params.htmlDigest
                    createdAt := now, modifiedAt := now }] })) := by
  constructor
  · intro db params now h
    simp [setTemplate, h]
  · intro db params now hp hfind hg
    obtain ⟨pr, hpr⟩ := Option.isSome_iff_exists.mp hp
    have huniq : db.templates.any (fun t =>
        t.templateID == params.templateID && t.projectID == params.projectID) = false :=
      any_eq_false_of_find?_none _ _ _ (fun a => Bool.and_comm _ _) hfind
    simp [setTemplate, hpr, chkDigestJoinRow, hfind, insertTemplate, hg, huniq]

/-- C2 witness: the creating call on the sample database. -/
theorem setTemplate_create_witness :
    setTemplate sampleDB
      { templateID := "t9", groupID := "g1", projectID := "p1", txt := "X"
        txtDigest := "dx", html := "Y", htmlDigest := "dy" } 9 =
      .ok ({ templateID := "t9", groupID := "g1", projectID := "p1", txt := "X"
             txtDigest := "dx", html := "Y", htmlDigest := "dy"
             createdAt := 9, modifiedAt := 9 },
           { sampleDB with templates := sampleDB.templates ++
               [{ templateID := "t9", groupID := "g1", projectID := "p1", txt := "X"
                  txtDigest := "dx", html := "Y", htmlDigest := "dy"
                  createdAt := 9, modifiedAt := 9 }] }) :=
  setTemplate_create_and_project_missing.2 sampleDB
    { templateID := "t9", groupID := "g1", projectID := "p1", txt := "X"
      txtDigest := "dx", html := "Y", htmlDigest := "dy" } 9
    (by decide) (by decide) (by decide)

/-- C2 counterexample: on a database holding the sample project but no
groups, the claimed create branch conditions hold (project exists,
template absent), yet SetTemplate does not insert and return a row: the
insert fails on the foreign key constraint of the templates table with
an untranslated wrapped storage error. -/
theorem setTemplate_create_group_missing_counterexample :
    (findProject noGroupsDB "p1").isSome = true ∧
    noGroupsDB.templates.find? (fun t =>
      t.projectID == "p1" && t.templateID == "t1") = none ∧
    setTemplate noGroupsDB
      { templateID := "t1", groupID := "g1", projectID := "p1", txt := "X"
        txtDigest := "dx", html := "Y", htmlDigest := "dy" } 9 =
      .error (.wrapped .sqliteFKConstraint) := by
  decide

/-! ## Claim C4: referential integrity translation on inserts -/

/-- C4 (amended).  Inserting a Group against a nonexistent ProjectID
fails with the coded ProjectNotFound error carrying the foreign key
violation as cause, and no row is written.  Inserting a Transport
against a nonexistent ProjectID writes no row, but the zero-rows
outcome of the insert-from-select is not translated: the call surfaces
the wrapped raw sql.ErrNoRows, which carries no store code.  Inserting
a Template whose project (and hence, in a referentially intact
database, its group) does not exist writes no row but surfaces the
wrapped raw foreign key constraint error, again with no store code. -/
theorem insert_referential_integrity :
    (∀ (db : DB) (params : AddGroup) (now : Datetime),
      findProject db params.projectID = none →
      insertGroup db params now =
        .error (.storeError .projectNotFound (some .sqliteFKConstraint)))
    ∧ (∀ (db : DB) (params : AddSMTPTransport) (now : Datetime),
      findProject db params.projectID = none →
      insertSMTPTransport db params now = .error (.wrapped .sqlNoRows))
    ∧ (∀ (db : DB) (params : AddTemplate) (now : Datetime),
      findProject db params.projectID = none →
      (∀ g ∈ db.groups, (findProject db g.projectID).isSome = true) →
      insertTemplate db params now = .error (.wrapped .sqliteFKConstraint))
    ∧ (GoErr.wrapped .sqlNoRows).asStoreCode = none
    ∧ (GoErr.wrapped .sqliteFKConstraint).asStoreCode = none := by
  refine ⟨?_, ?_, ?_, rfl, rfl⟩
  · intro db params now h
    simp [insertGroup, h]
  · intro db params now h
    simp [insertSMTPTransport, h]
  · intro db params now h hgs
    have hany : db.groups.any (fun g =>
        g.groupID == params.groupID && g.projectID == params.projectID) = false := by
      rw [List.any_eq_false]
      intro g hg hmatch
      have h2 : g.projectID = params.projectID :=
        eq_of_beq ((Bool.and_eq_true _ _).mp hmatch).2
      have h3 := hgs g hg
      rw [h2, h] at h3
      simp at h3
    simp [insertTemplate, hany]

/-- C4 witness: the three insert operations against the empty
database. -/
theorem insert_referential_integrity_witness :
    insertGroup emptyDB { groupID := "g1", projectID := "p1", groupName := "G" } 4 =
      .error (.storeError .projectNotFound (some .sqliteFKConstraint)) ∧
    insertSMTPTransport emptyDB sampleAddTransport 4 = .error (.wrapped .sqlNoRows) ∧
    insertTemplate emptyDB
      { templateID := "t1", groupID := "g1", projectID := "p1", txt := "X"
        txtDigest := "dx", html := "Y", htmlDigest := "dy" } 4 =
      .error (.wrapped .sqliteFKConstraint) :=
  ⟨insert_referential_integrity.1 emptyDB
      { groupID := "g1", projectID := "p1", groupName := "G" } 4 (by decide),
   insert_referential_integrity.2.1 emptyDB sampleAddTransport 4 (by decide),
   insert_referential_integrity.2.2.1 emptyDB
      { templateID := "t1", groupID := "g1", projectID := "p1", txt := "X"
        txtDigest := "dx", html := "Y", htmlDigest := "dy" } 4
      (by decide) (by decide)⟩

/-- C4 counterexample: inserting a Transport against a nonexistent
ProjectID does not fail with ProjectNotFound: the result is the
wrapped raw no-rows storage error, which carries no store code at
all. -/
theorem insertSMTPTransport_untranslated_counterexample :
    insertSMTPTransport emptyDB sampleAddTransport 7 =
      .error (.wrapped .sqlNoRows) ∧
    (GoErr.wrapped .sqlNoRows).asStoreCode = none := by
  decide

/-! ## Claim C5: two-layer not-found for GetTemplate -/

/-- C5 (amended).  GetTemplate returns the coded ProjectNotFound error
when the project row is absent, and the coded TemplateNotFound error
when the project exists but no template row matches (templateID,
projectID) — never the other code.  On success (stored row present,
with a non empty templateID, the join absence sentinel) the returned
value carries the stored identity, group, bodies and timestamps, but
its digest fields are empty — the amendment: the query does not select
the digest columns, so the stored template is not returned in full. -/
theorem getTemplate_two_layer :
    (∀ (db : DB) (projectID templateID : String),
      findProject db projectID = none →
      getTemplate db projectID templateID =
        .error (.storeError .projectNotFound (some .sqlNoRows)))
    ∧ (∀ (db : DB) (projectID templateID : String),
      (findProject db projectID).isSome = true →
      db.templates.find? (fun t =>
        t.projectID == projectID && t.templateID == templateID) = none →
      getTemplate db projectID templateID =
        .error (.storeError .templateNotFound none))
    ∧ (∀ (db : DB) (projectID templateID : String) (t : Template),
      (findProject db projectID).isSome = true →
      db.templates.find? (fun u =>
        u.projectID == projectID && u.templateID == templateID) = some t →
      templateID ≠ "" →
      getTemplate db projectID templateID =
        .ok { templateID := t.templateID, groupID := t.groupID
              projectID := projectID, txt := t.txt, txtDigest := ""
              html := t.html, htmlDigest := ""
              createdAt := t.createdAt, modifiedAt := t.modifiedAt }) := by
  refine ⟨?_, ?_, ?_⟩
  · intro db projectID templateID h
    simp [getTemplate, h]
  · intro db projectID templateID hp hfind
    obtain ⟨pr, hpr⟩ := Option.isSome_iff_exists.mp hp
    simp [getTemplate, hpr, hfind]
  · intro db projectID templateID t hp hfind hne
    obtain ⟨pr, hpr⟩ := Option.isSome_iff_exists.mp hp
    have hmem := List.find?_some hfind
    simp only [Bool.and_eq_true, beq_iff_eq] at hmem
    have htid : t.templateID = templateID := hmem.2
    have hne2 : (t.templateID == "") = false := by
      rw [htid]
      exact beq_eq_false_iff_ne.mpr hne
    simp [getTemplate, hpr, hfind, hne2]

/-- C5 witness: the three outcomes on the sample database. -/
theorem getTemplate_two_layer_witness :
    getTemplate sampleDB "zz" "t1" =
      .error (.storeError .projectNotFound (some .sqlNoRows)) ∧
    getTemplate sampleDB "p1" "zz" =
      .error (.storeError .templateNotFound none) ∧
    getTemplate sampleDB "p1" "t1" =
      .ok { templateID := "t1", groupID := "g1", projectID := "p1"
            txt := "A", txtDigest := "", html := "h", htmlDigest := ""
            createdAt := 5, modifiedAt := 5 } :=
  ⟨getTemplate_two_layer.1 sampleDB "zz" "t1" (by decide),
   getTemplate_two_layer.2.1 sampleDB "p1" "zz" (by decide) (by decide),
   getTemplate_two_layer.2.2 sampleDB "p1" "t1" sampleTemplate
     (by decide) (by decide) (by decide)⟩

/-- C5 counterexample: on success GetTemplate does not return the
stored template: the stored row carries nonempty digests while the
returned value has empty digest fields, because the SELECT list of the
query omits txt_digest and html_digest. -/
theorem getTemplate_digest_dropped_counterexample :
    sampleDB.templates = [sampleTemplate] ∧
    sampleTemplate.txtDigest = "da" ∧ sampleTemplate.htmlDigest = "dh" ∧
    getTemplate sampleDB "p1" "t1" =
      .ok { sampleTemplate with txtDigest := "", htmlDigest := "" } ∧
    ({ sampleTemplate with txtDigest := "", htmlDigest := "" } : Template) ≠
      sampleTemplate := by
  decide

/-! ## Claim C8: error shape of GetSMTPTransport -/

/-- C8 (amended).  When the project exists but no transport row matches
(transportID, projectID), GetSMTPTransport fails — but not with a coded
store error: it returns the bare package level sentinel
store.ErrTransportNotFound, a message-only error built by errors.New
that carries no code of the taxonomy and no unwrap-able cause.  The
project-missing layer, in contrast, is a coded store error
(ProjectNotFound with sql.ErrNoRows as cause). -/
theorem getSMTPTransport_error_shape :
    (∀ (db : DB) (transportID projectID : String),
      findProject db projectID = none →
      getSMTPTransport db transportID projectID =
        .error (.storeError .projectNotFound (some .sqlNoRows)))
    ∧ (∀ (db : DB) (transportID projectID : String),
      (findProject db projectID).isSome = true →
      db.smtpTransports.find? (fun t =>
        t.projectID == projectID && t.smtpTransportID == transportID) = none →
      getSMTPTransport db transportID projectID =
        .error .sentinelTransportNotFound)
    ∧ GoErr.sentinelTransportNotFound.asStoreCode = none := by
  refine ⟨?_, ?_, rfl⟩
  · intro db transportID projectID h
    simp [getSMTPTransport, h]
  · intro db transportID projectID hp hfind
    obtain ⟨pr, hpr⟩ := Option.isSome_iff_exists.mp hp
    simp [getSMTPTransport, hpr, hfind]

/-- C8 witness: the two error layers on the sample database. -/
theorem getSMTPTransport_error_shape_witness :
    getSMTPTransport sampleDB "tr1" "zz" =
      .error (.storeError .projectNotFound (some .sqlNoRows)) ∧
    getSMTPTransport sampleDB "tr1" "p1" =
      .error .sentinelTransportNotFound :=
  ⟨getSMTPTransport_error_shape.1 sampleDB "tr1" "zz" (by decide),
   getSMTPTransport_error_shape.2.1 sampleDB "tr1" "p1" (by decide) (by decide)⟩

/-- C8 counterexample: the transport-missing failure is not a coded
domain error: the returned value is the bare sentinel, which carries no
store code reachable by unwrapping. -/
theorem getSMTPTransport_bare_sentinel_counterexample :
    getSMTPTransport sampleDB "absent" "p1" =
      .error .sentinelTransportNotFound ∧
    GoErr.sentinelTransportNotFound.asStoreCode = none := by
  decide

/-! ## Byte string and hex lemmas -/

theorem take_append_self {α : Type} (l r : List α) : (l ++ r).take l.length = l := by
  induction l with
  | nil => rfl
  | cons a l ih => simp [List.take, ih]

theorem drop_append_self {α : Type} (l r : List α) : (l ++ r).drop l.length = r := by
  induction l with
  | nil => rfl
  | cons a l ih => simp [ih]

theorem natToBytesLE_length (len n : Nat) : (natToBytesLE len n).length = len := by
  induction len generalizing n with
  | zero => rfl
  | succ k ih => simp [natToBytesLE, ih]

theorem natOfBytesLE_natToBytesLE (len n : Nat) (h : n < 256 ^ len) :
    natOfBytesLE (natToBytesLE len n) = n := by
  induction len generalizing n with
  | zero =>
    simp [pow_zero] at h
    simp [natToBytesLE, natOfBytesLE, h]
  | succ k ih =>
    have hdiv : n / 256 < 256 ^ k := by
      rw [Nat.div_lt_iff_lt_mul (by norm_num)]
      calc n < 256 ^ (k + 1) := h
        _ = 256 ^ k * 256 := by rw [pow_succ]
    simp only [natToBytesLE, natOfBytesLE, ih (n / 256) hdiv]
    omega

theorem isBytes_natToBytesLE (len n : Nat) : IsBytes (natToBytesLE len n) := by
  induction len generalizing n with
  | zero => intro b hb; simp [natToBytesLE] at hb
  | succ k ih =>
    intro b hb
    simp only [natToBytesLE, List.mem_cons] at hb
    rcases hb with hb | hb
    · subst hb; exact Nat.mod_lt _ (by norm_num)
    · exact ih (n / 256) b hb

theorem keystream_length (key nonce : List Nat) (len : Nat) :
    (keystream key nonce len).length = len := by
  simp [keystream]

theorem isBytes_keystream (key nonce : List Nat) (len : Nat) :
    IsBytes (keystream key nonce len) := by
  intro b hb
  simp only [keystream, List.mem_map] at hb
  obtain ⟨i, _, hi⟩ := hb
  subst hi
  exact Nat.mod_lt _ (by norm_num)

theorem xorBytes_length (a b : List Nat) :
    (xorBytes a b).length = min a.length b.length := by
  simp [xorBytes]

theorem xorBytes_cancel (a b : List Nat) (h : b.length = a.length) :
    xorBytes (xorBytes a b) b = a := by
  induction a generalizing b with
  | nil => simp [xorBytes]
  | cons x xs ih =>
    rcases b with _ | ⟨y, ys⟩
    · simp at h
    · simp only [xorBytes, List.zipWith]
      rw [Nat.xor_assoc, Nat.xor_self, Nat.xor_zero]
      have : xorBytes (xorBytes xs ys) ys = xs := ih ys (by simpa using h)
      simp only [xorBytes] at this
      rw [this]

theorem isBytes_xorBytes (a b : List Nat) (ha : IsBytes a) (hb : IsBytes b) :
    IsBytes (xorBytes a b) := by
  induction a generalizing b with
  | nil => intro x hx; simp [xorBytes] at hx
  | cons x xs ih =>
    rcases b with _ | ⟨y, ys⟩
    · intro z hz; simp [xorBytes] at hz
    · intro z hz
      simp only [xorBytes, List.zipWith, List.mem_cons] at hz
      rcases hz with hz | hz
      · subst hz
        have hx : x < 2 ^ 8 := ha x (List.mem_cons_self _ _)
        have hy : y < 2 ^ 8 := hb y (List.mem_cons_self _ _)
        calc x ^^^ y < 2 ^ 8 := Nat.xor_lt_two_pow hx hy
          _ = 256 := by norm_num
      · exact ih ys (fun u hu => ha u (List.mem_cons_of_mem _ hu))
          (fun u hu => hb u (List.mem_cons_of_mem _ hu)) z hz

theorem gcmSeal_length (key nonce pt : List Nat) :
    (gcmSeal key nonce pt).length = pt.length + 16 := by
  simp [gcmSeal, xorBytes_length, keystream_length, natToBytesLE_length]

theorem isBytes_gcmSeal (key nonce pt : List Nat) (hpt : IsBytes pt) :
    IsBytes (gcmSeal key nonce pt) := by
  intro b hb
  simp only [gcmSeal, List.mem_append] at hb
  rcases hb with hb | hb
  · exact isBytes_xorBytes pt _ hpt (isBytes_keystream key nonce pt.length) b hb
  · exact isBytes_natToBytesLE 16 _ b hb

theorem gcmOpen_append (key nonce data tagB : List Nat) (hlen : tagB.length = 16) :
    gcmOpen key nonce (data ++ tagB) =
      if tagB = natToBytesLE 16 (authTagNat key nonce data) then
        some (xorBytes data (keystream key nonce data.length))
      else none := by
  have hL : (data ++ tagB).length = data.length + 16 := by simp [hlen]
  unfold gcmOpen
  rw [hL, Nat.add_sub_cancel, take_append_self, drop_append_self,
    if_neg (by omega)]

theorem gcmOpen_gcmSeal (key nonce pt : List Nat) :
    gcmOpen key nonce (gcmSeal key nonce pt) = some pt := by
  unfold gcmSeal
  rw [gcmOpen_append _ _ _ _ (natToBytesLE_length _ _), if_pos rfl]
  have hdl : (xorBytes pt (keystream key nonce pt.length)).length = pt.length := by
    rw [xorBytes_length, keystream_length, Nat.min_self]
  rw [hdl]
  exact congrArg some
    (xorBytes_cancel pt (keystream key nonce pt.length) (keystream_length key nonce _))

theorem hexDigitVal_hexDigitChar : ∀ n, n < 16 →
    hexDigitVal (hexDigitChar n) = some n := by
  decide

theorem hexEncodeChars_length (bs : List Nat) :
    (hexEncodeChars bs).length = 2 * bs.length := by
  induction bs with
  | nil => rfl
  | cons b rest ih => simp [hexEncodeChars, ih]; omega

theorem hexDecodeChars_hexEncodeChars (bs : List Nat) (h : IsBytes bs) :
    hexDecodeChars (hexEncodeChars bs) = some bs := by
  induction bs with
  | nil => rfl
  | cons b rest ih =>
    have hb : b < 256 := h b (List.mem_cons_self _ _)
    have hrest : IsBytes rest := fun x hx => h x (List.mem_cons_of_mem _ hx)
    have hhi : hexDigitVal (hexDigitChar (b / 16)) = some (b / 16) :=
      hexDigitVal_hexDigitChar _ (by omega)
    have hlo : hexDigitVal (hexDigitChar (b % 16)) = some (b % 16) :=
      hexDigitVal_hexDigitChar _ (by omega)
    simp only [hexEncodeChars, hexDecodeChars, hhi, hlo, ih hrest]
    have : 16 * (b / 16) + b % 16 = b := by omega
    rw [this]

/-! ## Claim C6: encryption round trip -/

/-- C6.  For every plaintext byte string, including the empty one, and
every (nonce, ciphertext) pair produced by Encrypt under a 16 byte key
(the nonce drawn being whatever 12 bytes the random source produced),
Decrypt on that pair returns exactly the plaintext; and the round trip
also holds through the hex encoded variants: HexDecodeDecrypt of the
EncryptHexEncode output returns the original plaintext. -/
theorem encrypt_decrypt_roundtrip :
    ∀ (m : Manager) (nonce pt : List Nat),
      m.key.length = 16 → nonce.length = 12 →
      (m.decrypt (m.encrypt nonce pt).1 (m.encrypt nonce pt).2 = some pt
      ∧ (IsBytes nonce → IsBytes pt →
        m.hexDecodeDecrypt (m.encryptHexEncode nonce pt).1
          (m.encryptHexEncode nonce pt).2 = some pt)) := by
  intro m nonce pt hkey hnonce
  constructor
  · exact gcmOpen_gcmSeal m.key nonce pt
  · intro hn hp
    have h1 : hexDecode (hexEncode nonce) = some nonce :=
      hexDecodeChars_hexEncodeChars nonce hn
    have h2 : hexDecode (hexEncode (gcmSeal m.key nonce pt)) =
        some (gcmSeal m.key nonce pt) :=
      hexDecodeChars_hexEncodeChars _ (isBytes_gcmSeal m.key nonce pt hp)
    show m.hexDecodeDecrypt (hexEncode nonce) (hexEncode (gcmSeal m.key nonce pt)) =
      some pt
    simp only [Manager.hexDecodeDecrypt, h1, h2]
    exact gcmOpen_gcmSeal m.key nonce pt

/-- C6 witness: the round trip at a concrete key and nonce, on the
empty plaintext and on a short password. -/
theorem encrypt_decrypt_roundtrip_witness :
    (Manager.mk 0 (List.replicate 16 7)).decrypt
      ((Manager.mk 0 (List.replicate 16 7)).encrypt (List.replicate 12 3) []).1
      ((Manager.mk 0 (List.replicate 16 7)).encrypt (List.replicate 12 3) []).2 =
      some [] ∧
    (Manager.mk 0 (List.replicate 16 7)).hexDecodeDecrypt
      ((Manager.mk 0 (List.replicate 16 7)).encryptHexEncode
        (List.replicate 12 3) [10, 20, 30]).1
      ((Manager.mk 0 (List.replicate 16 7)).encryptHexEncode
        (List.replicate 12 3) [10, 20, 30]).2 = some [10, 20, 30] :=
  ⟨(encrypt_decrypt_roundtrip (Manager.mk 0 (List.replicate 16 7))
      (List.replicate 12 3) [] (by decide) (by decide)).1,
   (encrypt_decrypt_roundtrip (Manager.mk 0 (List.replicate 16 7))
      (List.replicate 12 3) [10, 20, 30] (by decide) (by decide)).2
      (by decide) (by decide)⟩

/-! ## Bit flip lemmas -/

theorem set_append_left {α : Type} (l r : List α) (i : Nat) (x : α)
    (h : i < l.length) : (l ++ r).set i x = l.set i x ++ r := by
  induction l generalizing i with
  | nil => simp at h
  | cons a l ih =>
    cases i with
    | zero => rfl
    | succ k => exact congrArg (List.cons a) (ih k (by simpa using h))

theorem set_append_right {α : Type} (l r : List α) (i : Nat) (x : α)
    (h : l.length ≤ i) : (l ++ r).set i x = l ++ r.set (i - l.length) x := by
  induction l generalizing i with
  | nil => simp
  | cons a l ih =>
    cases i with
    | zero => simp at h
    | succ k =>
      rw [show k + 1 - (a :: l).length = k - l.length from by simp]
      exact congrArg (List.cons a) (ih k (by simpa using h))

theorem getD_append_left {α : Type} (l r : List α) (i : Nat) (d : α)
    (h : i < l.length) : (l ++ r).getD i d = l.getD i d := by
  induction l generalizing i with
  | nil => simp at h
  | cons a l ih =>
    cases i with
    | zero => rfl
    | succ k => simpa using ih k (by simpa using h)

theorem getD_append_right {α : Type} (l r : List α) (i : Nat) (d : α)
    (h : l.length ≤ i) : (l ++ r).getD i d = r.getD (i - l.length) d := by
  induction l generalizing i with
  | nil => simp
  | cons a l ih =>
    cases i with
    | zero => simp at h
    | succ k =>
      simp only [List.cons_append, List.getD_cons_succ, List.length_cons,
        Nat.succ_sub_succ]
      exact ih k (by simpa using h)

theorem getD_set_self {α : Type} (l : List α) (i : Nat) (x d : α)
    (h : i < l.length) : (l.set i x).getD i d = x := by
  induction l generalizing i with
  | nil => simp at h
  | cons a l ih =>
    cases i with
    | zero => rfl
    | succ k => simpa using ih k (by simpa using h)

theorem flipBit_ne (j b : Nat) : flipBit j b ≠ b := by
  unfold flipBit
  have hpos : 0 < 2 ^ j := pow_pos (by norm_num) j
  rcases hbit : Nat.testBit b j with _ | _
  · simp only [Bool.false_eq_true, if_false]
    omega
  · simp only [if_true]
    have hge : 2 ^ j ≤ b := Nat.testBit_implies_ge hbit
    omega

theorem flipByteBit_length (l : List Nat) (i j : Nat) :
    (flipByteBit l i j).length = l.length := by
  simp [flipByteBit]

theorem flipByteBit_ne (l : List Nat) (i j : Nat) (h : i < l.length) :
    flipByteBit l i j ≠ l := by
  intro heq
  have h1 : (flipByteBit l i j).getD i 0 = l.getD i 0 := by rw [heq]
  unfold flipByteBit at h1
  rw [getD_set_self _ _ _ _ h] at h1
  exact flipBit_ne j (l.getD i 0) h1

theorem natOfBytesLE_set (l : List Nat) (i x : Nat) (h : i < l.length) :
    natOfBytesLE (l.set i x) + l.getD i 0 * 256 ^ i =
      natOfBytesLE l + x * 256 ^ i := by
  induction l generalizing i with
  | nil => simp at h
  | cons b rest ih =>
    cases i with
    | zero =>
      simp only [List.set, natOfBytesLE, List.getD_cons_zero, pow_zero]
      omega
    | succ k =>
      have hk : k < rest.length := by simpa using h
      simp only [List.set, natOfBytesLE, List.getD_cons_succ]
      calc b + 256 * natOfBytesLE (rest.set k x) + rest.getD k 0 * 256 ^ (k + 1)
          = b + 256 * (natOfBytesLE (rest.set k x) + rest.getD k 0 * 256 ^ k) := by
            rw [pow_succ]; ring
        _ = b + 256 * (natOfBytesLE rest + x * 256 ^ k) := by rw [ih k hk]
        _ = b + 256 * natOfBytesLE rest + x * 256 ^ (k + 1) := by
            rw [pow_succ]; ring

theorem natOfBytesLE_flip (l : List Nat) (i j : Nat) (h : i < l.length) :
    natOfBytesLE (flipByteBit l i j) = natOfBytesLE l + 2 ^ j * 256 ^ i ∨
    natOfBytesLE l = natOfBytesLE (flipByteBit l i j) + 2 ^ j * 256 ^ i := by
  have hset := natOfBytesLE_set l i (flipBit j (l.getD i 0)) h
  unfold flipByteBit
  unfold flipBit at hset
  rcases hbit : Nat.testBit (l.getD i 0) j with _ | _
  · rw [hbit] at hset
    simp only [Bool.false_eq_true, if_false] at hset
    rw [Nat.add_mul] at hset
    left
    unfold flipBit
    rw [hbit]
    simp only [Bool.false_eq_true, if_false]
    omega
  · rw [hbit] at hset
    simp only [if_true] at hset
    have hge : 2 ^ j ≤ l.getD i 0 := Nat.testBit_implies_ge hbit
    rw [Nat.sub_mul] at hset
    have hle : 2 ^ j * 256 ^ i ≤ l.getD i 0 * 256 ^ i :=
      Nat.mul_le_mul_right _ hge
    right
    unfold flipBit
    rw [hbit]
    simp only [if_true]
    omega

/-! ## Tag modulus lemmas -/

theorem tagModulus_odd : tagModulus % 2 = 1 := by norm_num [tagModulus]

theorem one_lt_tagModulus : 1 < tagModulus := by norm_num [tagModulus]

theorem tagModulus_lt : tagModulus < 256 ^ 16 := by norm_num [tagModulus]

theorem not_dvd_two_pow_tagModulus (k : Nat) : ¬ tagModulus ∣ 2 ^ k := by
  intro hdvd
  have hcop2 : Nat.Coprime tagModulus 2 :=
    Nat.coprime_two_right.mpr (Nat.odd_iff.mpr tagModulus_odd)
  have hcop : Nat.Coprime tagModulus (2 ^ k) := Nat.Coprime.pow_right k hcop2
  have h1 : tagModulus ∣ Nat.gcd tagModulus (2 ^ k) := Nat.dvd_gcd dvd_rfl hdvd
  rw [Nat.Coprime] at hcop
  rw [hcop] at h1
  have h2 : tagModulus = 1 := Nat.dvd_one.mp h1
  have := one_lt_tagModulus
  omega

theorem mod_ne_of_eq_add_pow2 (a b k : Nat) (h : b = a + 2 ^ k) :
    a % tagModulus ≠ b % tagModulus := by
  intro heq
  have hle : a ≤ b := by
    have : 0 < 2 ^ k := pow_pos (by norm_num) k
    omega
  have hdvd : tagModulus ∣ b - a := (Nat.modEq_iff_dvd' hle).mp heq
  have hsub : b - a = 2 ^ k := by
    have : 0 < 2 ^ k := pow_pos (by norm_num) k
    omega
  rw [hsub] at hdvd
  exact not_dvd_two_pow_tagModulus k hdvd

theorem two_pow_mul_256_pow (j i : Nat) : 2 ^ j * 256 ^ i = 2 ^ (j + 8 * i) := by
  rw [show (256 : Nat) = 2 ^ 8 from by norm_num, ← pow_mul, ← pow_add]

theorem authTag_flip_data_ne (key nonce data : List Nat) (i j : Nat)
    (h : i < data.length) :
    authTagNat key nonce (flipByteBit data i j) ≠ authTagNat key nonce data := by
  unfold authTagNat
  rcases natOfBytesLE_flip data i j h with hc | hc
  · exact Ne.symm (mod_ne_of_eq_add_pow2
      (natOfBytesLE key + natOfBytesLE nonce + natOfBytesLE data)
      (natOfBytesLE key + natOfBytesLE nonce + natOfBytesLE (flipByteBit data i j))
      (j + 8 * i) (by rw [hc, ← two_pow_mul_256_pow]; omega))
  · exact mod_ne_of_eq_add_pow2
      (natOfBytesLE key + natOfBytesLE nonce + natOfBytesLE (flipByteBit data i j))
      (natOfBytesLE key + natOfBytesLE nonce + natOfBytesLE data)
      (j + 8 * i) (by rw [hc, ← two_pow_mul_256_pow]; omega)

theorem authTag_flip_nonce_ne (key nonce data : List Nat) (i j : Nat)
    (h : i < nonce.length) :
    authTagNat key (flipByteBit nonce i j) data ≠ authTagNat key nonce data := by
  unfold authTagNat
  rcases natOfBytesLE_flip nonce i j h with hc | hc
  · exact Ne.symm (mod_ne_of_eq_add_pow2
      (natOfBytesLE key + natOfBytesLE nonce + natOfBytesLE data)
      (natOfBytesLE key + natOfBytesLE (flipByteBit nonce i j) + natOfBytesLE data)
      (j + 8 * i) (by rw [hc, ← two_pow_mul_256_pow]; omega))
  · exact mod_ne_of_eq_add_pow2
      (natOfBytesLE key + natOfBytesLE (flipByteBit nonce i j) + natOfBytesLE data)
      (natOfBytesLE key + natOfBytesLE nonce + natOfBytesLE data)
      (j + 8 * i) (by rw [hc, ← two_pow_mul_256_pow]; omega)

theorem natToBytesLE16_inj (a b : Nat) (ha : a < 256 ^ 16) (hb : b < 256 ^ 16)
    (h : natToBytesLE 16 a = natToBytesLE 16 b) : a = b := by
  rw [← natOfBytesLE_natToBytesLE 16 a ha, ← natOfBytesLE_natToBytesLE 16 b hb, h]

theorem authTagNat_lt (key nonce data : List Nat) :
    authTagNat key nonce data < 256 ^ 16 := by
  have h1 : authTagNat key nonce data < tagModulus :=
    Nat.mod_lt _ (by have := one_lt_tagModulus; omega)
  exact lt_trans h1 tagModulus_lt

/-! ## Claim C7: tamper detection fails closed -/

/-- C7.  For every plaintext and every (nonce, ciphertext) pair
produced by Encrypt, flipping any single bit of any byte of the
ciphertext, or of the nonce, makes Decrypt on the altered pair fail
with the AuthenticationFailure outcome (none); the altered or
corrupted plaintext is never returned, because the authentication tag
no longer verifies. -/
theorem tamper_detection :
    ∀ (m : Manager) (nonce pt : List Nat) (i j : Nat), j < 8 →
      (i < ((m.encrypt nonce pt).2).length →
        m.decrypt nonce (flipByteBit (m.encrypt nonce pt).2 i j) = none)
      ∧ (i < nonce.length →
        m.decrypt (flipByteBit nonce i j) (m.encrypt nonce pt).2 = none) := by
  intro m nonce pt i j hj
  have htlen : (natToBytesLE 16
      (authTagNat m.key nonce (xorBytes pt (keystream m.key nonce pt.length)))).length
      = 16 := natToBytesLE_length _ _
  constructor
  · intro hi
    show gcmOpen m.key nonce (flipByteBit (gcmSeal m.key nonce pt) i j) = none
    have hlen : i < (xorBytes pt (keystream m.key nonce pt.length)).length + 16 := by
      have h2 := gcmSeal_length m.key nonce pt
      have h3 : (gcmSeal m.key nonce pt).length =
          (xorBytes pt (keystream m.key nonce pt.length)).length + 16 := by
        simp [gcmSeal, htlen]
      have hi2 : i < (gcmSeal m.key nonce pt).length := hi
      rw [h3] at hi2
      exact hi2
    rcases Nat.lt_or_ge i (xorBytes pt (keystream m.key nonce pt.length)).length
      with hcase | hcase
    · -- a data byte is flipped: the recomputed tag shifts by a nonzero
      -- power of two in the tag modulus and no longer matches
      have hflip : flipByteBit (gcmSeal m.key nonce pt) i j =
          flipByteBit (xorBytes pt (keystream m.key nonce pt.length)) i j ++
            natToBytesLE 16
              (authTagNat m.key nonce (xorBytes pt (keystream m.key nonce pt.length))) := by
        unfold gcmSeal flipByteBit
        rw [getD_append_left _ _ _ _ hcase, set_append_left _ _ _ _ hcase]
      rw [hflip, gcmOpen_append _ _ _ _ htlen, if_neg]
      intro heq
      have hinj : authTagNat m.key nonce (xorBytes pt (keystream m.key nonce pt.length)) =
          authTagNat m.key nonce
            (flipByteBit (xorBytes pt (keystream m.key nonce pt.length)) i j) :=
        natToBytesLE16_inj _ _ (authTagNat_lt _ _ _) (authTagNat_lt _ _ _) heq
      exact authTag_flip_data_ne m.key nonce _ i j hcase hinj.symm
    · -- a tag byte is flipped: the stored tag no longer equals the
      -- recomputed one
      have hi2 : i - (xorBytes pt (keystream m.key nonce pt.length)).length < 16 := by
        omega
      have hflip : flipByteBit (gcmSeal m.key nonce pt) i j =
          xorBytes pt (keystream m.key nonce pt.length) ++
            flipByteBit
              (natToBytesLE 16
                (authTagNat m.key nonce (xorBytes pt (keystream m.key nonce pt.length))))
              (i - (xorBytes pt (keystream m.key nonce pt.length)).length) j := by
        unfold gcmSeal flipByteBit
        rw [getD_append_right _ _ _ _ hcase, set_append_right _ _ _ _ hcase]
      rw [hflip, gcmOpen_append _ _ _ _ (by rw [flipByteBit_length]; exact htlen),
        if_neg]
      exact flipByteBit_ne _ _ j (by rw [htlen]; exact hi2)
  · intro hi
    show gcmOpen m.key (flipByteBit nonce i j) (gcmSeal m.key nonce pt) = none
    unfold gcmSeal
    rw [gcmOpen_append _ _ _ _ htlen, if_neg]
    intro heq
    have hinj : authTagNat m.key nonce (xorBytes pt (keystream m.key nonce pt.length)) =
        authTagNat m.key (flipByteBit nonce i j)
          (xorBytes pt (keystream m.key nonce pt.length)) :=
      natToBytesLE16_inj _ _ (authTagNat_lt _ _ _) (authTagNat_lt _ _ _) heq
    exact authTag_flip_nonce_ne m.key nonce _ i j hi hinj.symm

/-- C7 witness: the tamper outcomes at a concrete key, nonce and
plaintext, flipping the low bit of the first ciphertext byte, a bit of
a tag byte, and a bit of the nonce. -/
theorem tamper_detection_witness :
    (Manager.mk 0 (List.replicate 16 7)).decrypt (List.replicate 12 3)
      (flipByteBit ((Manager.mk 0 (List.replicate 16 7)).encrypt
        (List.replicate 12 3) [1, 2, 3]).2 0 0) = none ∧
    (Manager.mk 0 (List.replicate 16 7)).decrypt (List.replicate 12 3)
      (flipByteBit ((Manager.mk 0 (List.replicate 16 7)).encrypt
        (List.replicate 12 3) [1, 2, 3]).2 10 5) = none ∧
    (Manager.mk 0 (List.replicate 16 7)).decrypt (flipByteBit (List.replicate 12 3) 4 1)
      ((Manager.mk 0 (List.replicate 16 7)).encrypt
        (List.replicate 12 3) [1, 2, 3]).2 = none :=
  ⟨(tamper_detection (Manager.mk 0 (List.replicate 16 7)) (List.replicate 12 3)
      [1, 2, 3] 0 0 (by decide)).1 (by decide),
   (tamper_detection (Manager.mk 0 (List.replicate 16 7)) (List.replicate 12 3)
      [1, 2, 3] 10 5 (by decide)).1 (by decide),
   (tamper_detection (Manager.mk 0 (List.replicate 16 7)) (List.replicate 12 3)
      [1, 2, 3] 4 1 (by decide)).2 (by decide)⟩

/-! ## Claim C9: fixed width credential envelope -/

/-- C9.  For every password stored by CreateSMTPTransport, the
persisted EncryptedPassword equals hex(nonce) concatenated with
hex(ciphertext), where hex(nonce) is exactly 24 hexadecimal characters
(a 12 byte nonce); splitting the stored string at the fixed offset of
24 characters recovers exactly the hex nonce and hex ciphertext, and
the decryption path (HexDecodeDecrypt on the two halves) recovers the
original password. -/
theorem credential_envelope :
    ∀ (m : Manager) (nonce password : List Nat),
      m.key.length = 16 → nonce.length = 12 → IsBytes nonce → IsBytes password →
      ((hexEncode nonce).length = 24
      ∧ createSMTPTransportEncryptedPassword m nonce password =
          hexEncode nonce ++ hexEncode (gcmSeal m.key nonce password)
      ∧ goSliceTo24 (createSMTPTransportEncryptedPassword m nonce password) =
          some (hexEncode nonce)
      ∧ goSliceFrom24 (createSMTPTransportEncryptedPassword m nonce password) =
          some (hexEncode (gcmSeal m.key nonce password))
      ∧ m.hexDecodeDecrypt (hexEncode nonce)
          (hexEncode (gcmSeal m.key nonce password)) = some password) := by
  intro m nonce password hkey hnonce hbn hbp
  have hlen24 : (hexEncodeChars nonce).length = 24 := by
    rw [hexEncodeChars_length, hnonce]
  have hdata : (createSMTPTransportEncryptedPassword m nonce password).data =
      hexEncodeChars nonce ++ hexEncodeChars (gcmSeal m.key nonce password) := rfl
  refine ⟨hlen24, rfl, ?_, ?_, ?_⟩
  · unfold goSliceTo24
    rw [hdata, if_pos (by rw [List.length_append, hlen24]; omega)]
    rw [← hlen24, take_append_self]
    rfl
  · unfold goSliceFrom24
    rw [hdata, if_pos (by rw [List.length_append, hlen24]; omega)]
    rw [← hlen24, drop_append_self]
    rfl
  · have h1 : hexDecode (hexEncode nonce) = some nonce :=
      hexDecodeChars_hexEncodeChars nonce hbn
    have h2 : hexDecode (hexEncode (gcmSeal m.key nonce password)) =
        some (gcmSeal m.key nonce password) :=
      hexDecodeChars_hexEncodeChars _ (isBytes_gcmSeal m.key nonce password hbp)
    simp only [Manager.hexDecodeDecrypt, h1, h2]
    exact gcmOpen_gcmSeal m.key nonce password

/-- C9 witness: the envelope at a concrete key, nonce and password. -/
theorem credential_envelope_witness :
    (hexEncode (List.replicate 12 3)).length = 24 ∧
    goSliceTo24 (createSMTPTransportEncryptedPassword
      (Manager.mk 0 (List.replicate 16 7)) (List.replicate 12 3) [5, 6]) =
      some (hexEncode (List.replicate 12 3)) ∧
    (Manager.mk 0 (List.replicate 16 7)).hexDecodeDecrypt
      (hexEncode (List.replicate 12 3))
      (hexEncode (gcmSeal (List.replicate 16 7) (List.replicate 12 3) [5, 6])) =
      some [5, 6] := by
  have h := credential_envelope (Manager.mk 0 (List.replicate 16 7))
    (List.replicate 12 3) [5, 6] (by decide) (by decide) (by decide) (by decide)
  exact ⟨h.1, h.2.2.1, h.2.2.2.2⟩

/-! ## Claim C10: SendEmail credential splitting is partial -/

/-- C10.  The credential splitting of SendEmail slices the stored
EncryptedPassword at position 24 with no length guard: for every
transport returned by the store whose EncryptedPassword is shorter
than 24 characters the slice panics (outcome ok none) instead of
returning a typed error, and whenever the string has at least 24
characters the operation is total and yields the prefix and suffix at
the fixed offset. -/
theorem sendEmail_split_partiality :
    ∀ (db : DB) (transportID projectID : String) (t : SMTPTransport),
      getSMTPTransport db transportID projectID = .ok t →
      ((t.encryptedPassword.length < 24 →
        sendEmailPasswordStep db transportID projectID = .ok none)
      ∧ (24 ≤ t.encryptedPassword.length →
        sendEmailPasswordStep db transportID projectID =
          .ok (some (⟨t.encryptedPassword.data.take 24⟩,
                     ⟨t.encryptedPassword.data.drop 24⟩)))) := by
  intro db tid pid t hget
  have hstep : sendEmailPasswordStep db tid pid = .ok (sendEmailSplitPassword t) := by
    simp [sendEmailPasswordStep, hget]
  have hlen : t.encryptedPassword.length = t.encryptedPassword.data.length := rfl
  constructor
  · intro hlt
    rw [hstep]
    have hc : ¬ 24 ≤ t.encryptedPassword.length := by omega
    simp [sendEmailSplitPassword, goSliceTo24, goSliceFrom24, hc]
  · intro hge
    rw [hstep]
    simp [sendEmailSplitPassword, goSliceTo24, goSliceFrom24, hge]

/-- A stored transport whose encrypted password is shorter than the 24
character nonce prefix. -/
def shortPwTransport : SMTPTransport :=
  { smtpTransportID := "tr1", projectID := "p1", transportName := "T"
    host := "smtp.example.com", port := 587, username := "u"
    encryptedPassword := "abc", emailFrom := "f@example.com"
    emailFromName := "F", emailReplyTo := [], createdAt := 1, modifiedAt := 1 }

/-- A stored transport whose encrypted password has 32 characters. -/
def longPwTransport : SMTPTransport :=
  { smtpTransportID := "tr2", projectID := "p1", transportName := "T"
    host := "smtp.example.com", port := 587, username := "u"
    encryptedPassword := "0123456789abcdef0123456789abcdef"
    emailFrom := "f@example.com", emailFromName := "F", emailReplyTo := []
    createdAt := 1, modifiedAt := 1 }

/-- A database holding the sample project and the two transports. -/
def transportsDB : DB :=
  { projects := [sampleProject], smtpTransports := [shortPwTransport, longPwTransport]
    groups := [], templates := [] }

/-- C10 witness: the panic outcome on the short stored password and
the total split on the long one. -/
theorem sendEmail_split_partiality_witness :
    sendEmailPasswordStep transportsDB "tr1" "p1" = .ok none ∧
    sendEmailPasswordStep transportsDB "tr2" "p1" =
      .ok (some ("0123456789abcdef01234567", "89abcdef")) :=
  ⟨(sendEmail_split_partiality transportsDB "tr1" "p1" shortPwTransport
      (by decide)).1 (by decide),
   (sendEmail_split_partiality transportsDB "tr2" "p1" longPwTransport
      (by decide)).2 (by decide)⟩

end SquishyLite
